import Mathlib

/-!
Verification of the flood-map layer-lifecycle and hover-binding engine of the
juneau-economic-council repository (src/src/pages/FloodLevels.js and the
near-duplicate evolution in src/unnamed/part_000), together with the gauge
poller (src/unnamed/part_000) and the business search (src/src/pages/Search.js).

The Mapbox renderer is modelled as explicit state: a list of sources, a list
of fill layers with a visibility flag, and a list of layer-scoped pointer
event listeners.  Event-handler closures are identified by freshly allocated
numeric tokens (each `setupHoverPopup` call creates fresh `moveHandler` /
`outHandler` closures; `map.off` removes exactly the closure it is given).
`map.once('idle', cb)` registrations are modelled as a FIFO queue of pending
hover-rebind targets; `fireIdle` drains the queue in registration order,
exactly as Mapbox runs once-listeners.  All claims about settled states are
stated in the style-loaded regime (`styleLoaded = true`); the deferred
`styledata` path of `runWhenStyleReady` is verified separately on a dedicated
gate model.
-/

/-- A Mapbox vector source as created by `map.addSource(floodId, {type:'vector', url})`. -/
structure MapSource where
  id : String
  url : String
  deriving DecidableEq

/-- A Mapbox fill layer as created by `map.addLayer({id, type:'fill', source,
'source-layer', layout: {visibility}, paint: {'fill-color', ...}})`.
`visible` models `layout.visibility == 'visible'`. -/
structure Layer where
  id : String
  source : String
  sourceLayer : String
  color : String
  visible : Bool
  deriving DecidableEq

/-- A layer-scoped pointer-event listener installed by `map.on(event, layerId, handler)`.
The `token` identifies the JS closure, so `map.off(event, layerId, handler)`
removes exactly the matching entry. -/
structure Listener where
  event : String
  layerId : String
  token : Nat
  deriving DecidableEq

/-- The renderer state visible to the engine.  `removeLog` records every layer id
for which `map.removeLayer` was actually issued (instrumentation used to decide
the layer-persistence claim; it has no influence on behaviour). -/
structure MapState where
  styleLoaded : Bool
  sources : List MapSource
  layers : List Layer
  listeners : List Listener
  removeLog : List String
  deriving DecidableEq

/-- `map.getLayer(id)` existence check. -/
def getLayer (m : MapState) (id : String) : Bool :=
  m.layers.any (fun l => l.id == id)

/-- `map.getSource(id)` existence check. -/
def getSource (m : MapState) (id : String) : Bool :=
  m.sources.any (fun s => s.id == id)

/-- The component state surrounding the map: the `loadingLayers` flag, the queue
of pending `map.once('idle', ...)` hover-rebind targets, the mutable refs
`hoverHandlersRef` (`move`/`out` closure tokens plus the bound `layerId`),
`activeLayerIdRef`, `popupRef`, and a counter allocating fresh closure tokens. -/
structure EngineState where
  map : MapState
  loadingLayers : Bool
  idleQueue : List String
  hoverMoveTok : Option Nat
  hoverOutTok : Option Nat
  hoverLayerId : Option String
  activeLayerId : Option String
  popupCreated : Bool
  nextToken : Nat
  deriving DecidableEq

/-- The `tilesetMap.base` object of FloodLevels.js: tile index 64..76 to tileset id. -/
def tilesetBase (t : Int) : Option String :=
  if t = 64 then some "ccav82q0" else if t = 65 then some "3z7whbfp"
  else if t = 66 then some "8kk8etzn" else if t = 67 then some "akq41oym"
  else if t = 68 then some "5vsqqhd8" else if t = 69 then some "awu2n97c"
  else if t = 70 then some "a2ttaa7t" else if t = 71 then some "0rlea0ym"
  else if t = 72 then some "44bl8opr" else if t = 73 then some "65em8or7"
  else if t = 74 then some "9qrkn8pk" else if t = 75 then some "3ktp8nyu"
  else if t = 76 then some "avpruavl" else none

/-- The `tilesetMap.hesco` object of FloodLevels.js: only tile indices 70..74. -/
def tilesetHesco (t : Int) : Option String :=
  if t = 70 then some "cjs05ojz" else if t = 71 then some "1z6funv6"
  else if t = 72 then some "9kmxxb2g" else if t = 73 then some "4nh8p66z"
  else if t = 74 then some "cz0f7io4" else none

/-- `mode ? tilesetMap.hesco[level] : tilesetMap.base[level]` - the TilesetEntry
lookup for a (scenario mode, tile index) pair. -/
def tilesetFor (mode : Bool) (t : Int) : Option String :=
  if mode then tilesetHesco t else tilesetBase t

/-- The `customColors` array of FloodLevels.js. -/
def customColors : List String :=
  ["#87c210", "#c3b91e", "#e68a1e", "#31a354", "#3182bd", "#124187",
   "#d63b3b", "#9b3dbd", "#d13c8f", "#c2185b", "#756bb1", "#f59380", "#ba4976"]

/-- `validLevels = Array.from({length: 13}, (_, i) => 64 + i)`, i.e. tile
indices 64..76. -/
def validLevels : List Int :=
  [64, 65, 66, 67, 68, 69, 70, 71, 72, 73, 74, 75, 76]

/-- The source id `` `flood${level}` ``. -/
def floodSourceIdStr (lv : Int) : String :=
  "flood" ++ toString lv

/-- The layer id `` `flood${level}-fill` ``. -/
def floodLayerIdStr (lv : Int) : String :=
  floodSourceIdStr lv ++ "-fill"

/-- The thirteen flood fill layer ids of the level matrix. -/
def floodFillIds : List String :=
  validLevels.map floodLayerIdStr

/-- `buildVisibleLayerId = (lvl) => flood${64 + (lvl - 8)}-fill`. -/
def buildVisibleLayerId (lvl : Int) : String :=
  "flood" ++ toString (64 + (lvl - 8)) ++ "-fill"

/-- One iteration of the "clear previous" loop of `updateFloodLayers`:
`if (map.getLayer(layerId)) map.removeLayer(layerId); if (map.getSource(sourceId)) map.removeSource(sourceId)`. -/
def removeStep (m : MapState) (lv : Int) : MapState :=
  let layerId := floodLayerIdStr lv
  let sourceId := floodSourceIdStr lv
  let m1 :=
    if getLayer m layerId then
      { m with layers := m.layers.filter (fun l => !(l.id == layerId)),
               removeLog := m.removeLog ++ [layerId] }
    else m
  if getSource m1 sourceId then
    { m1 with sources := m1.sources.filter (fun s => !(s.id == sourceId)) }
  else m1

/-- Accumulator threaded through the layer-creation loop of `updateFloodLayers`:
the map being mutated, the `loadedCount` local, the `loadingLayers` flag and
the `map.once('idle', ...)` registrations made so far. -/
structure AddAcc where
  st : MapState
  loadedCount : Nat
  loading : Bool
  idleAdds : List String
  deriving DecidableEq

/-- The `loadedCount++; if (loadedCount === validLevels.length) { setLoadingLayers(false);
map.once('idle', () => setupHoverPopup(targetLayerId)); }` tail shared by both
branches of the creation loop. -/
def bumpLoaded (targetLayerId : String) (acc : AddAcc) : AddAcc :=
  let c := acc.loadedCount + 1
  if c = validLevels.length then
    { acc with loadedCount := c, loading := false, idleAdds := acc.idleAdds ++ [targetLayerId] }
  else
    { acc with loadedCount := c }

/-- One iteration of the creation loop of `updateFloodLayers`: skip a HESCO
level with no tileset, otherwise `addSource` + `addLayer` with visibility
`floodId === targetFloodId`. -/
def addStep (mode : Bool) (targetFloodId targetLayerId : String) (acc : AddAcc) (lv : Int) : AddAcc :=
  let floodId := floodSourceIdStr lv
  let layerId := floodId ++ "-fill"
  let visible := floodId == targetFloodId
  let tilesetId := if mode then tilesetHesco lv else tilesetBase lv
  if mode && tilesetId.isNone then
    bumpLoaded targetLayerId acc
  else
    let sourceLayerName := if mode then "flood" ++ toString lv else toString lv
    let st1 := { acc.st with
      sources := acc.st.sources ++
        [({ id := floodId, url := "mapbox://mapfean." ++ tilesetId.getD "undefined" } : MapSource)] }
    let st2 := { st1 with
      layers := st1.layers ++
        [({ id := layerId, source := floodId, sourceLayer := sourceLayerName,
            color := customColors.getD (lv - 64).toNat "", visible := visible } : Layer)] }
    bumpLoaded targetLayerId { acc with st := st2 }

/-- `updateFloodLayers(mode)` of FloodLevels.js, for the component state
`selectedFloodLevel`: guard on `map.isStyleLoaded()`, set loading, remove all
flood layers and sources, re-create the matrix for `mode` with only the target
visible, clear loading once all 13 iterations ran, and register the idle
hover-rebind on `targetLayerId`. -/
def updateFloodLayers (mode : Bool) (selectedFloodLevel : Int) (e : EngineState) : EngineState :=
  if e.map.styleLoaded then
    let targetFloodId := "flood" ++ toString (64 + (selectedFloodLevel - 8))
    let targetLayerId := targetFloodId ++ "-fill"
    let cleared := validLevels.foldl removeStep e.map
    let acc := validLevels.foldl (addStep mode targetFloodId targetLayerId)
      { st := cleared, loadedCount := 0, loading := true, idleAdds := [] }
    { e with map := acc.st, loadingLayers := acc.loading,
             idleQueue := e.idleQueue ++ acc.idleAdds }
  else e

/-- The ids of the currently visible flood fill layers of the renderer. -/
def visibleFloodIds (m : MapState) : List String :=
  (m.layers.filter (fun l => l.visible && floodFillIds.contains l.id)).map (fun l => l.id)

/-- A freshly loaded map with its style ready and no flood artifacts. -/
def cleanMap : MapState :=
  { styleLoaded := true, sources := [], layers := [], listeners := [], removeLog := [] }

/-- The component state right after map initialisation. -/
def cleanEngine : EngineState :=
  { map := cleanMap, loadingLayers := false, idleQueue := [],
    hoverMoveTok := none, hoverOutTok := none, hoverLayerId := none,
    activeLayerId := none, popupCreated := false, nextToken := 0 }

/-- The "clear old handlers" prologue of `setupHoverPopup`: if
`hoverHandlersRef.current.layerId` is set, `map.off` the recorded `move` and
`out` closures from that layer and null the three ref fields. -/
def clearHoverHandlers (e : EngineState) : EngineState :=
  match e.hoverLayerId with
  | none => e
  | some oldId =>
    let ls1 :=
      match e.hoverMoveTok with
      | some t => e.map.listeners.filter
          (fun l => !(l.event == "mousemove" && l.layerId == oldId && l.token == t))
      | none => e.map.listeners
    let ls2 :=
      match e.hoverOutTok with
      | some t => ls1.filter
          (fun l => !(l.event == "mouseleave" && l.layerId == oldId && l.token == t))
      | none => ls1
    { e with map := { e.map with listeners := ls2 },
             hoverMoveTok := none, hoverOutTok := none, hoverLayerId := none }

/-- `setupHoverPopup(activeLayerId)` of FloodLevels.js in the style-loaded
regime: clear the previous binding, ensure the single reusable popup exists,
create fresh `moveHandler`/`outHandler` closures (fresh tokens), and bind them
iff `map.getLayer(activeLayerId)` confirms the layer exists.  A null
`activeLayerId` (or a style still loading, whose deferred body is out of scope
here) leaves the state unchanged. -/
def setupHoverPopup (activeLayerId : Option String) (e : EngineState) : EngineState :=
  match activeLayerId with
  | none => e
  | some lid =>
    if e.map.styleLoaded then
      let e1 := clearHoverHandlers e
      let e2 := { e1 with popupCreated := true }
      let mvTok := e2.nextToken
      let outTok := e2.nextToken + 1
      let e3 := { e2 with nextToken := e2.nextToken + 2 }
      if getLayer e3.map lid then
        { e3 with
          map := { e3.map with listeners := e3.map.listeners ++
            [{ event := "mousemove", layerId := lid, token := mvTok },
             { event := "mouseleave", layerId := lid, token := outTok }] },
          hoverMoveTok := some mvTok, hoverOutTok := some outTok,
          hoverLayerId := some lid, activeLayerId := some lid }
      else e3
    else e

/-- The renderer goes idle: every pending `map.once('idle', () =>
setupHoverPopup(target))` callback runs, in registration order, and the
once-registrations are consumed. -/
def fireIdle (e : EngineState) : EngineState :=
  e.idleQueue.foldl (fun acc t => setupHoverPopup (some t) acc) { e with idleQueue := [] }

/-- Folding a sequence of hover-rebind requests (each one a `setupHoverPopup`
call triggered by a layer update) over the engine state. -/
def rebindAll (ids : List String) (e : EngineState) : EngineState :=
  ids.foldl (fun acc i => setupHoverPopup (some i) acc) e

/-- The state of one `runWhenStyleReady(map, fn)` interaction, with `fn`
abstracted to an invocation counter: whether `map.isStyleLoaded()` holds,
whether the one-shot `styledata` handler is currently subscribed, and how
often `fn` has been invoked. -/
structure GateSt where
  styleLoaded : Bool
  subscribed : Bool
  fnCalls : Nat
  deriving DecidableEq

/-- `runWhenStyleReady(map, fn)` of FloodLevels.js / part_000: no-op without a
map (`present = false`); with the style loaded, invoke `fn` synchronously;
otherwise subscribe the one-shot handler `once` to `styledata`. -/
def runWhenStyleReady (present : Bool) (st : GateSt) : GateSt :=
  if !present then st
  else if st.styleLoaded then { st with fnCalls := st.fnCalls + 1 }
  else { st with subscribed := true }

/-- One firing of the renderer's `styledata` notification: the one-shot handler
(if subscribed) first unsubscribes itself (`map.off('styledata', once)`) and
then invokes `fn`. -/
def fireStyledata (st : GateSt) : GateSt :=
  if st.subscribed then { st with subscribed := false, fnCalls := st.fnCalls + 1 }
  else st

/-- `k` consecutive `styledata` notifications. -/
def fireStyledataN : Nat → GateSt → GateSt
  | 0, st => st
  | k + 1, st => fireStyledataN k (fireStyledata st)

/-- The selection state of the component: `selectedFloodLevel` and `hescoMode`. -/
structure Selection where
  level : Int
  hesco : Bool
  deriving DecidableEq

/-- `toggleHescoMode` of FloodLevels.js: `newMode = !prev`; turning the mode on
while `selectedFloodLevel` is outside [14,18] is refused and the mode settles
to `false` (base). -/
def toggleHescoMode (s : Selection) : Selection :=
  let newMode := !s.hesco
  if newMode && (s.level < 14 || s.level > 18) then { s with hesco := false }
  else { s with hesco := newMode }

/-- The hesco-reset effect of part_000: after a level change, `if (hescoMode &&
(selectedFloodLevel < 14 || selectedFloodLevel > 18)) setHescoMode(false)`. -/
def applyHescoReset (s : Selection) : Selection :=
  if s.hesco && (s.level < 14 || s.level > 18) then { s with hesco := false } else s

/-- Setting `selectedFloodLevel`, with the hesco-reset effect settled. -/
def setLevel (n : Int) (s : Selection) : Selection :=
  applyHescoReset { s with level := n }

/-- ASCII lower-casing of one character, the fragment of JS `toLowerCase()`
relevant to the data; stated on characters so all string operations stay
computable by the kernel. -/
def lowerChar (c : Char) : Char :=
  if 'A' ≤ c && c ≤ 'Z' then Char.ofNat (c.toNat + 32) else c

/-- JS `s.toLowerCase()` restricted to ASCII. -/
def toLowerStr (s : String) : String :=
  String.mk (s.data.map lowerChar)

/-- An ASCII whitespace character, the fragment of the JS trimming rules
relevant here. -/
def isWsChar (c : Char) : Bool :=
  c = ' ' || c = '\t' || c = '\n' || c = '\r'

/-- Trim ASCII whitespace from both ends of a character list (JS string
trimming as performed by the `Number` coercion). -/
def trimAsciiList (cs : List Char) : List Char :=
  ((cs.dropWhile isWsChar).reverse.dropWhile isWsChar).reverse

/-- The numeric value of a decimal digit character. -/
def digitVal (c : Char) : Option Nat :=
  if c.isDigit then some (c.toNat - '0'.toNat) else none

/-- Reads a non-empty all-digit character list as a natural number. -/
def parseDigitList (cs : List Char) : Option Nat :=
  if cs.isEmpty then none
  else cs.foldl
    (fun acc c =>
      match acc, digitVal c with
      | some n, some d => some (n * 10 + d)
      | _, _ => none)
    (some 0)

/-- Model of the JS `Number(string)` / unary `+` coercion used by
`Number.isFinite(+depth)`, returning the value in tenths.  Scope of the model:
plain decimal numerals (optional sign, digits, optional single fractional
digit); the empty / whitespace-only string coerces to 0 as in JS.  Strings
with no digit at all (other than the empty string) coerce to NaN or ±Infinity
in JS, i.e. `none` here.  Numerals finer than one decimal are outside the
fixed-point model and also map to `none`. -/
def parseTenthsParts (sgn : Int) (intPart afterInt : List Char) : Option Int :=
  match afterInt with
  | [] => (parseDigitList intPart).map (fun n => sgn * (n : Int) * 10)
  | '.' :: frac =>
    if frac.all (fun c => c.isDigit) then
      match intPart, frac with
      | [], [] => none
      | _, [] => (parseDigitList intPart).map (fun n => sgn * (n : Int) * 10)
      | _, [d] => some (sgn * (((parseDigitList intPart).getD 0 : Nat) * 10 + ((digitVal d).getD 0 : Nat)))
      | _, _ => none
    else none
  | _ => none

/-- Splits the numeral into integer digits and the remainder and hands both to
`parseTenthsParts`. -/
def parseTenthsCore (sgn : Int) (rest : List Char) : Option Int :=
  parseTenthsParts sgn (rest.takeWhile (fun c => c.isDigit))
    (rest.drop ((rest.takeWhile (fun c => c.isDigit)).length))

/-- Sign handling of the `Number(string)` coercion; see `parseTenthsCore` for
the digits. -/
def parseTenths (s : String) : Option Int :=
  match trimAsciiList s.data with
  | [] => some 0
  | '-' :: r => parseTenthsCore (-1) r
  | '+' :: r => parseTenthsCore 1 r
  | cs => parseTenthsCore 1 cs

/-- `Number(x).toFixed(1)` for a value given in tenths. -/
def toFixed1 (t : Int) : String :=
  (if t < 0 then "-" else "") ++ toString (t.natAbs / 10) ++ "." ++ toString (t.natAbs % 10)

/-- A JS property value reaching the hover handler: a (finite) number,
modelled in fixed-point tenths, or a string. -/
inductive JVal where
  | jnum (tenths : Int)
  | jstr (s : String)
  deriving DecidableEq

/-- The feature properties the hover `moveHandler` reads (`props.DN`,
`props.depth`); `none` models an absent property. -/
structure FeatProps where
  DN : Option JVal
  depth : Option JVal
  deriving DecidableEq

/-- `const depth = props.DN ?? props.depth ?? 'Unknown'`. -/
def hoverDepthValue (p : FeatProps) : JVal :=
  (p.DN.getD (p.depth.getD (JVal.jstr "Unknown")))

/-- The `Number.isFinite(+depth)` coercion on a property value. -/
def numCoerce : JVal → Option Int
  | JVal.jnum t => some t
  | JVal.jstr s => parseTenths s

/-- The text interpolated into the hover tooltip by `moveHandler`:
`` `Water Depth: ${formatted} ft` `` where `formatted =
Number.isFinite(+depth) ? Number(depth).toFixed(1) : depth` (the `<b>` markup
around the text is presentation and not modelled). -/
def hoverTooltipText (p : FeatProps) : String :=
  let depth := hoverDepthValue p
  let formatted :=
    match numCoerce depth with
    | some t => toFixed1 t
    | none => match depth with | JVal.jnum t => toFixed1 t | JVal.jstr s => s
  "Water Depth: " ++ formatted ++ " ft"

/-- One entry of the USGS time-series `values` array: `{value, dateTime}`.
The timestamp carries the observable outcome of `new Date(latest.dateTime)`:
`none` models an unparseable timestamp (an Invalid Date, on which
`Intl.DateTimeFormat(...).format` throws a RangeError), `some dt` a valid one,
with the Alaska-time rendering abstracted to the string `dt` - the same style
of abstraction as the `Option` body for `response.json()`. -/
structure GaugeSample where
  value : String
  dateTime : Option String
  deriving DecidableEq

/-- The part of the USGS response the poller reads:
`data?.value?.timeSeries?.[0]?.values?.[0]?.value`, collapsed to an optional
list of samples (`none` models any break in the optional-chaining path). -/
structure GaugeSeriesBody where
  values : Option (List GaugeSample)
  deriving DecidableEq

/-- The observable outcome of one gauge fetch: the network operation rejects
(failure or abort), or an HTTP response arrives with `ok` status and a body
(`none` body models `response.json()` rejecting on malformed JSON). -/
inductive FetchOutcome where
  | netError
  | response (ok : Bool) (body : Option GaugeSeriesBody)
  deriving DecidableEq

/-- A gauge descriptor (`{id, name}`). -/
structure Gage where
  id : String
  name : String
  deriving DecidableEq

/-- The reading object produced per gauge by `fetchWaterLevels`. -/
structure GaugeReading where
  id : String
  name : String
  value : String
  dateTime : String
  status : String
  deriving DecidableEq

/-- The single polled gauge of part_000. -/
def mendenhallGage : Gage :=
  { id := "15052500", name := "Mendenhall Lake Stage Level" }

/-- The degraded reading returned by the per-gauge catch and by the
empty-values branch. -/
def offlineReading (g : Gage) : GaugeReading :=
  { id := g.id, name := g.name, value := "N/A", dateTime := "N/A", status := "Offline" }

/-- Rounding of `a / b` to the nearest integer with ties picking the larger
integer, as the `toFixed` algorithm of ECMA-262 does on the magnitude
("if there are two such n, pick the larger n"); requires `b > 0`. -/
def roundHalfUp (a b : Nat) : Nat :=
  (2 * a + b) / (2 * b)

/-- Model of JS `parseFloat` composed with the later `v.toFixed(2)` rendering,
returning the value in hundredths: leading whitespace skipped, optional sign,
longest digit prefix with an optional fraction of any length (rounded to
hundredths on the magnitude, ties up, per the `toFixed` algorithm), trailing
garbage ignored; `none` exactly when no digit is consumed (parseFloat returns
NaN, and `Number.isFinite` also rejects the digit-free `Infinity` forms).
Decimal arithmetic is exact here; the binary representation error of JS
doubles (which can shift a tie such as "3.455") is outside the model and no
theorem depends on the rounded value. -/
def parseFloatHundredths (s : String) : Option Int :=
  let cs := s.data.dropWhile isWsChar
  let sgn : Int := match cs with | '-' :: _ => -1 | _ => 1
  let rest := match cs with | '-' :: r => r | '+' :: r => r | r => r
  let intPart := rest.takeWhile (fun c => c.isDigit)
  let afterInt := rest.drop intPart.length
  let frac :=
    match afterInt with
    | '.' :: r => r.takeWhile (fun c => c.isDigit)
    | _ => []
  if intPart.isEmpty && frac.isEmpty then none
  else
    let ip := (parseDigitList intPart).getD 0
    let fracVal := (parseDigitList frac).getD 0
    some (sgn * (ip * 100 + roundHalfUp (fracVal * 100) (10 ^ frac.length) : Nat))

/-- `v.toFixed(2)` for a value given in hundredths. -/
def toFixed2 (h : Int) : String :=
  (if h < 0 then "-" else "") ++ toString (h.natAbs / 100) ++ "." ++
    toString (h.natAbs / 10 % 10) ++ toString (h.natAbs % 10)

/-- Placeholder sample; only read under a non-emptiness guard, mirroring
`values[values.length - 1]`. -/
def defaultSample : GaugeSample :=
  { value := "", dateTime := none }

/-- The `try` block of the per-gauge arrow function in `fetchWaterLevels`:
`throw` on a rejected fetch, on `!response.ok` and on a malformed JSON body.
In the non-empty branch, `const v = parseFloat(latest.value)` is computed
first (it never throws), then `const alaskaTime = new Intl.DateTimeFormat(...)
.format(new Date(latest.dateTime))`, which throws a RangeError when the
timestamp is an Invalid Date (`dateTime = none` in the model), and only then
the reading is returned with `Number.isFinite(v) ? v.toFixed(2) : 'N/A'`. -/
def fetchGageTry (g : Gage) (o : FetchOutcome) : Except String GaugeReading :=
  match o with
  | FetchOutcome.netError => Except.error "fetch rejected"
  | FetchOutcome.response ok body =>
    if !ok then Except.error "HTTP status"
    else
      match body with
      | none => Except.error "malformed JSON"
      | some b =>
        match b.values with
        | some values =>
          if values.length > 0 then
            let latest := values.getLastD defaultSample
            let v := parseFloatHundredths latest.value
            match latest.dateTime with
            | none => Except.error "RangeError: invalid time value"
            | some alaskaTime =>
              Except.ok { id := g.id, name := g.name,
                          value := match v with | some h => toFixed2 h | none => "N/A",
                          dateTime := alaskaTime, status := "Online" }
          else Except.ok (offlineReading g)
        | none => Except.ok (offlineReading g)

/-- The per-gauge fetch with its local `catch`: any throw degrades to the
Offline reading, so the poller always yields a `GaugeReading`. -/
def fetchGage (g : Gage) (o : FetchOutcome) : GaugeReading :=
  match fetchGageTry g o with
  | Except.ok r => r
  | Except.error _ => offlineReading g

/-- One business feature of businesses.geojson, as read by the search bar
(`f.properties?.USER_Busin`). -/
structure BizFeature where
  USER_Busin : Option String
  deriving DecidableEq

/-- JS `hay.includes(needle)` on strings. -/
def strIncludes (hay needle : String) : Bool :=
  decide (needle.toList <:+: hay.toList)

/-- `fetchSuggestions(input)` of Search.js over the optional
`bizData?.features` list: empty on falsy input or missing data, otherwise the
case-insensitive name matches, capped by `slice(0, 10)`. -/
def fetchSuggestions (input : String) (bizFeatures : Option (List BizFeature)) : List BizFeature :=
  if input = "" || bizFeatures.isNone then []
  else
    let lower := toLowerStr input
    ((bizFeatures.getD []).filter
      (fun f => strIncludes (toLowerStr (f.USER_Busin.getD "")) lower)).take 10


/-- The layer (if any) appended by one iteration of the creation loop of
`updateFloodLayers`; restates the `addStep` creation branch for reasoning. -/
def layerAddedAt (mode : Bool) (targetFloodId : String) (lv : Int) : List Layer :=
  let floodId := floodSourceIdStr lv
  let tilesetId := if mode then tilesetHesco lv else tilesetBase lv
  if mode && tilesetId.isNone then []
  else
    [({ id := floodId ++ "-fill", source := floodId,
        sourceLayer := if mode then "flood" ++ toString lv else toString lv,
        color := customColors.getD (lv - 64).toNat "",
        visible := floodId == targetFloodId } : Layer)]

/-- All layers appended by the creation loop, in order. -/
def addsOf (mode : Bool) (targetFloodId : String) (lvls : List Int) : List Layer :=
  (lvls.map (layerAddedAt mode targetFloodId)).flatten

/-- Consistency of the hover-binding bookkeeping: the listeners present on the
map are exactly the pair recorded in `hoverHandlersRef` (or none). -/
def hoverInv (e : EngineState) : Prop :=
  match e.hoverLayerId with
  | some lid => ∃ mt ot, e.hoverMoveTok = some mt ∧ e.hoverOutTok = some ot ∧
      e.map.listeners =
        [{ event := "mousemove", layerId := lid, token := mt },
         { event := "mouseleave", layerId := lid, token := ot }]
  | none => e.map.listeners = []

/-! ## Helper lemmas -/

theorem fireStyledataN_of_not_subscribed (k : Nat) (st : GateSt)
    (h : st.subscribed = false) : fireStyledataN k st = st := by
  induction k with
  | zero => rfl
  | succ j ih =>
    have hfix : fireStyledata st = st := by
      unfold fireStyledata
      simp [h]
    show fireStyledataN j (fireStyledata st) = st
    rw [hfix, ih]

/-! ## Claim theorems -/

/-- Claim C6: whenever the selected flood level is outside [14,18], the
scenario mode settles to base: a level change resets an active barrier mode
via the hesco-reset effect, and `toggleHescoMode` refuses to turn the mode on
outside the range (turning it off always yields base). -/
theorem hesco_forced_base_outside_range :
    (∀ (s : Selection) (n : Int), (n < 14 ∨ 18 < n) → (setLevel n s).hesco = false) ∧
    (∀ s : Selection, (s.level < 14 ∨ 18 < s.level) → (toggleHescoMode s).hesco = false) := by
  constructor
  · intro s n hn
    unfold setLevel applyHescoReset
    cases hsc : s.hesco
    · simp [hsc]
    · have hc : (decide (n < 14) || decide (n > 18)) = true := by
        rcases hn with h | h <;> simp [h]
      simp [hsc, hc]
  · intro s hn
    unfold toggleHescoMode
    cases hsc : s.hesco
    · have hc : (decide (s.level < 14) || decide (s.level > 18)) = true := by
        rcases hn with h | h <;> simp [h]
      simp [hsc, hc]
    · simp [hsc]

/-- Witness for C6 at level 9: a level change out of range forces base, and a
toggle attempt at level 9 stays base. -/
theorem hesco_forced_base_outside_range_witness :
    (setLevel 9 { level := 16, hesco := true }).hesco = false ∧
    (toggleHescoMode { level := 9, hesco := false }).hesco = false :=
  ⟨hesco_forced_base_outside_range.1 { level := 16, hesco := true } 9 (by decide),
   hesco_forced_base_outside_range.2 { level := 9, hesco := false } (by decide)⟩

/-- Claim C3: `runWhenStyleReady` is a no-op without a map; with the style
loaded it invokes `fn` synchronously exactly once; otherwise it subscribes the
one-shot `styledata` handler, and across any number `k` of subsequent
`styledata` firings `fn` runs exactly once when `k ≥ 1` and never twice. -/
theorem runWhenStyleReady_invokes_once (present : Bool) (st : GateSt) (k : Nat)
    (hsub : st.subscribed = false) :
    (fireStyledataN k (runWhenStyleReady present st)).fnCalls =
      st.fnCalls + (if present && (st.styleLoaded || decide (1 ≤ k)) then 1 else 0) ∧
    (present = false → runWhenStyleReady present st = st) ∧
    (present = true → st.styleLoaded = true →
      runWhenStyleReady present st = { st with fnCalls := st.fnCalls + 1 }) := by
  refine ⟨?_, ?_, ?_⟩
  · cases hp : present
    · simp only [runWhenStyleReady, Bool.not_false, if_pos]
      rw [fireStyledataN_of_not_subscribed k st hsub]
      simp
    · cases hl : st.styleLoaded
      · have hgate : runWhenStyleReady true st = { st with subscribed := true } := by
          simp [runWhenStyleReady, hl]
        rw [hgate]
        cases k with
        | zero => simp [fireStyledataN, hl]
        | succ j =>
          have hfire : fireStyledata { st with subscribed := true } =
              { st with subscribed := false, fnCalls := st.fnCalls + 1 } := by
            simp [fireStyledata]
          show (fireStyledataN j (fireStyledata { st with subscribed := true })).fnCalls = _
          rw [hfire, fireStyledataN_of_not_subscribed j
            { st with subscribed := false, fnCalls := st.fnCalls + 1 } rfl]
          simp [hl, Nat.succ_le_succ (Nat.zero_le j)]
      · have hgate : runWhenStyleReady true st = { st with fnCalls := st.fnCalls + 1 } := by
          simp [runWhenStyleReady, hl]
        rw [hgate, fireStyledataN_of_not_subscribed k { st with fnCalls := st.fnCalls + 1 } hsub]
        simp [hl]
  · intro hp
    simp [runWhenStyleReady, hp]
  · intro hp hl
    simp [runWhenStyleReady, hp, hl]

/-- Witness for C3: style not yet loaded, three `styledata` firings, `fn` runs
exactly once. -/
theorem runWhenStyleReady_invokes_once_witness :
    (fireStyledataN 3 (runWhenStyleReady true
      { styleLoaded := false, subscribed := false, fnCalls := 0 })).fnCalls = 1 := by
  have h := (runWhenStyleReady_invokes_once true
    { styleLoaded := false, subscribed := false, fnCalls := 0 } 3 rfl).1
  simpa using h

/-- Claim C8 counterexample: UI level 18 maps to tile index 74, which is NOT
outside the defined range [64,76], and after the update a flood layer IS
visible (the claim asserts no layer would be visible). -/
theorem level18_visible_counterexample :
    ((64 : Int) + (18 - 8) = 74 ∧ ¬((64 : Int) + (18 - 8) < 64 ∨ (76 : Int) < 64 + (18 - 8))) ∧
    visibleFloodIds (updateFloodLayers false 18 cleanEngine).map ≠ [] := by
  constructor
  · decide
  · decide

/-- Claim C8 as amended: level 18 maps to tile index 74, inside [64,76], with a
tileset in both modes; after the base-mode update settles exactly the flood74
layer is visible, `loadingLayers` is false, and the update is a total function
(no exception path). -/
theorem level18_layer_visible :
    (64 : Int) + (18 - 8) = 74 ∧
    (tilesetBase 74).isSome = true ∧ (tilesetHesco 74).isSome = true ∧
    visibleFloodIds (updateFloodLayers false 18 cleanEngine).map = ["flood74-fill"] ∧
    (updateFloodLayers false 18 cleanEngine).loadingLayers = false := by
  refine ⟨by decide, by decide, by decide, by decide, by decide⟩

/-- Claim C10: the suggestion list has at most 10 entries, every entry's
business name contains the input case-insensitively, and an empty input or a
missing dataset yields no suggestions. -/
theorem fetchSuggestions_spec (input : String) (biz : Option (List BizFeature)) :
    (fetchSuggestions input biz).length ≤ 10 ∧
    (∀ f ∈ fetchSuggestions input biz,
        strIncludes (toLowerStr (f.USER_Busin.getD "")) (toLowerStr input) = true) ∧
    fetchSuggestions "" biz = [] ∧
    fetchSuggestions input none = [] := by
  refine ⟨?_, ?_, by simp [fetchSuggestions], by simp [fetchSuggestions]⟩
  · unfold fetchSuggestions
    split
    · simp
    · exact List.length_take_le 10 _
  · intro f hf
    unfold fetchSuggestions at hf
    split at hf
    · simp at hf
    · have hf' : f ∈ ((biz.getD []).filter
          (fun f => strIncludes (toLowerStr (f.USER_Busin.getD "")) (toLowerStr input))) :=
        List.take_subset 10 _ hf
      exact (List.mem_filter.mp hf').2

/-- Witness for C10: the single matching business is returned and satisfies
the case-insensitive containment. -/
theorem fetchSuggestions_spec_witness :
    strIncludes (toLowerStr ((some "Kathy Krafts").getD "")) (toLowerStr "ka") = true :=
  (fetchSuggestions_spec "ka" (some [{ USER_Busin := some "Kathy Krafts" }])).2.1
    { USER_Busin := some "Kathy Krafts" } (by decide)

theorem removeStep_mem {m : MapState} {lv : Int} {l : Layer}
    (h : l ∈ (removeStep m lv).layers) :
    l ∈ m.layers ∧ l.id ≠ floodLayerIdStr lv := by
  by_cases hg : getLayer m (floodLayerIdStr lv) = true
  · have h' : l ∈ m.layers.filter (fun l => !(l.id == floodLayerIdStr lv)) := by
      unfold removeStep at h
      simp only [hg, if_true] at h
      split at h
      · exact h
      · exact h
    have hm := List.mem_filter.mp h'
    refine ⟨hm.1, ?_⟩
    simpa using hm.2
  · have hg' : getLayer m (floodLayerIdStr lv) = false := by simpa using hg
    have h' : l ∈ m.layers := by
      unfold removeStep at h
      simp only [hg', Bool.false_eq_true, if_false] at h
      split at h
      · exact h
      · exact h
    refine ⟨h', ?_⟩
    intro heq
    have : getLayer m (floodLayerIdStr lv) = true :=
      List.any_eq_true.mpr ⟨l, h', by simp [heq]⟩
    simp [this] at hg'

theorem removeFold_mem (lvls : List Int) (m : MapState) (l : Layer)
    (h : l ∈ (lvls.foldl removeStep m).layers) :
    l ∈ m.layers ∧ ∀ lv ∈ lvls, l.id ≠ floodLayerIdStr lv := by
  induction lvls generalizing m with
  | nil => simpa using h
  | cons a as ih =>
    simp only [List.foldl_cons] at h
    obtain ⟨h1, h2⟩ := ih (removeStep m a) h
    obtain ⟨h3, h4⟩ := removeStep_mem h1
    refine ⟨h3, ?_⟩
    intro lv hlv
    rcases List.mem_cons.mp hlv with rfl | hlv'
    · exact h4
    · exact h2 lv hlv'

theorem removeStep_layers_mem_of_ne {m : MapState} {lv : Int} {l : Layer}
    (hl : l ∈ m.layers) (hne : l.id ≠ floodLayerIdStr lv) :
    l ∈ (removeStep m lv).layers := by
  by_cases hg : getLayer m (floodLayerIdStr lv) = true
  · unfold removeStep
    simp only [hg, if_true]
    split
    · exact List.mem_filter.mpr ⟨hl, by simp [hne]⟩
    · exact List.mem_filter.mpr ⟨hl, by simp [hne]⟩
  · have hg' : getLayer m (floodLayerIdStr lv) = false := by simpa using hg
    unfold removeStep
    simp only [hg', Bool.false_eq_true, if_false]
    split
    · exact hl
    · exact hl

theorem getLayer_removeStep_true {m : MapState} {lv : Int} {id : String}
    (h : getLayer m id = true) (hne : id ≠ floodLayerIdStr lv) :
    getLayer (removeStep m lv) id = true := by
  obtain ⟨l, hl, hb⟩ := List.any_eq_true.mp h
  have hid : l.id = id := by simpa using hb
  exact List.any_eq_true.mpr
    ⟨l, removeStep_layers_mem_of_ne hl (by simpa [hid] using hne), by simp [hid]⟩

theorem removeStep_log_mono {m : MapState} {lv : Int} {x : String}
    (h : x ∈ m.removeLog) : x ∈ (removeStep m lv).removeLog := by
  by_cases hg : getLayer m (floodLayerIdStr lv) = true
  · unfold removeStep
    simp only [hg, if_true]
    split
    · simp [h]
    · simp [h]
  · have hg' : getLayer m (floodLayerIdStr lv) = false := by simpa using hg
    unfold removeStep
    simp only [hg', Bool.false_eq_true, if_false]
    split
    · exact h
    · exact h

theorem removeFold_log_mono (lvls : List Int) (m : MapState) (x : String)
    (h : x ∈ m.removeLog) : x ∈ (lvls.foldl removeStep m).removeLog := by
  induction lvls generalizing m with
  | nil => simpa using h
  | cons a as ih =>
    simp only [List.foldl_cons]
    exact ih (removeStep m a) (removeStep_log_mono h)

theorem removeStep_log_self {m : MapState} {lv : Int}
    (h : getLayer m (floodLayerIdStr lv) = true) :
    floodLayerIdStr lv ∈ (removeStep m lv).removeLog := by
  unfold removeStep
  simp only [h, if_true]
  split
  · simp
  · simp

theorem removeFold_log (lvls : List Int) (id : String) :
    ∀ m : MapState, id ∈ lvls.map floodLayerIdStr → getLayer m id = true →
      id ∈ (lvls.foldl removeStep m).removeLog := by
  induction lvls with
  | nil =>
    intro m hid _
    simp at hid
  | cons a as ih =>
    intro m hid h
    simp only [List.foldl_cons]
    by_cases he : id = floodLayerIdStr a
    · subst he
      exact removeFold_log_mono as (removeStep m a) _ (removeStep_log_self h)
    · have hid' : id ∈ as.map floodLayerIdStr := by
        simp only [List.map_cons, List.mem_cons] at hid
        rcases hid with h1 | h2
        · exact absurd h1 he
        · exact h2
      exact ih (removeStep m a) hid' (getLayer_removeStep_true h he)

theorem bumpLoaded_st (t : String) (acc : AddAcc) : (bumpLoaded t acc).st = acc.st := by
  unfold bumpLoaded
  by_cases hc : acc.loadedCount + 1 = validLevels.length
  · simp [hc]
  · simp [hc]

theorem addStep_st_layers (mode : Bool) (tf tl : String) (acc : AddAcc) (lv : Int) :
    (addStep mode tf tl acc lv).st.layers = acc.st.layers ++ layerAddedAt mode tf lv := by
  cases mode
  · simp [addStep, layerAddedAt, bumpLoaded_st]
  · by_cases hnone : tilesetHesco lv = none
    · simp [addStep, layerAddedAt, hnone, bumpLoaded_st]
    · have hfalse : (tilesetHesco lv).isNone = false := by
        cases hx : tilesetHesco lv
        · exact absurd hx hnone
        · rfl
      simp [addStep, layerAddedAt, hfalse, bumpLoaded_st]

theorem addStep_st_removeLog (mode : Bool) (tf tl : String) (acc : AddAcc) (lv : Int) :
    (addStep mode tf tl acc lv).st.removeLog = acc.st.removeLog := by
  cases mode
  · simp [addStep, bumpLoaded_st]
  · by_cases hnone : tilesetHesco lv = none
    · simp [addStep, hnone, bumpLoaded_st]
    · have hfalse : (tilesetHesco lv).isNone = false := by
        cases hx : tilesetHesco lv
        · exact absurd hx hnone
        · rfl
      simp [addStep, hfalse, bumpLoaded_st]

theorem addFold_layers (mode : Bool) (tf tl : String) (lvls : List Int) (acc : AddAcc) :
    (lvls.foldl (addStep mode tf tl) acc).st.layers = acc.st.layers ++ addsOf mode tf lvls := by
  induction lvls generalizing acc with
  | nil => simp [addsOf]
  | cons a as ih =>
    simp only [List.foldl_cons, addsOf, List.map_cons, List.flatten_cons]
    rw [ih, addStep_st_layers]
    simp [addsOf, List.append_assoc]

theorem addFold_removeLog (mode : Bool) (tf tl : String) (lvls : List Int) (acc : AddAcc) :
    (lvls.foldl (addStep mode tf tl) acc).st.removeLog = acc.st.removeLog := by
  induction lvls generalizing acc with
  | nil => rfl
  | cons a as ih =>
    simp only [List.foldl_cons]
    rw [ih, addStep_st_removeLog]

theorem updateFloodLayers_map_layers (mode : Bool) (lvl : Int) (e : EngineState)
    (hs : e.map.styleLoaded = true) :
    (updateFloodLayers mode lvl e).map.layers =
      (validLevels.foldl removeStep e.map).layers ++
        addsOf mode ("flood" ++ toString (64 + (lvl - 8))) validLevels := by
  unfold updateFloodLayers
  rw [hs]
  simp only [if_true]
  rw [addFold_layers]

theorem updateFloodLayers_map_removeLog (mode : Bool) (lvl : Int) (e : EngineState)
    (hs : e.map.styleLoaded = true) :
    (updateFloodLayers mode lvl e).map.removeLog =
      (validLevels.foldl removeStep e.map).removeLog := by
  unfold updateFloodLayers
  rw [hs]
  simp only [if_true]
  rw [addFold_removeLog]

/-- Claim C5 counterexample: the flood64 layer exists after a first
`updateFloodLayers` call, and the very next call issues `removeLayer` for it
(the claim asserts flood layers are never removed once created). -/
theorem flood_layers_removed_counterexample :
    getLayer (updateFloodLayers false 9 cleanEngine).map "flood64-fill" = true ∧
    "flood64-fill" ∈ (updateFloodLayers false 10 (updateFloodLayers false 9 cleanEngine)).map.removeLog := by
  constructor
  · decide
  · decide

/-- Claim C5 as amended: far from preserving layers, every `updateFloodLayers`
call (with the style ready) issues `removeLayer` for each currently existing
flood fill layer before re-creating the matrix; visibility-only flipping
exists only in the level-change effect of the part_000 variant. -/
theorem flood_update_removes_existing_layers (e : EngineState) (mode : Bool) (lvl : Int)
    (hs : e.map.styleLoaded = true) (id : String) (hid : id ∈ floodFillIds)
    (hex : getLayer e.map id = true) :
    id ∈ (updateFloodLayers mode lvl e).map.removeLog := by
  rw [updateFloodLayers_map_removeLog mode lvl e hs]
  exact removeFold_log validLevels id e.map (by simpa [floodFillIds] using hid) hex

/-- Witness for the amended C5: the flood64 layer created by the first update
is logged as removed by the second. -/
theorem flood_update_removes_existing_layers_witness :
    "flood64-fill" ∈ (updateFloodLayers true 16 (updateFloodLayers false 9 cleanEngine)).map.removeLog :=
  flood_update_removes_existing_layers (updateFloodLayers false 9 cleanEngine) true 16
    (by decide) "flood64-fill" (by decide) (by decide)

/-- Claim C1: for every UI level in [1,18] and both modes, after
`updateFloodLayers` settles the visible flood fill layers are exactly the
target layer when a tileset exists for (mode, tileIndex) and none otherwise -
in particular at most one layer is visible, and it is visible iff the
TilesetEntry exists. -/
theorem flood_update_single_visible (L : Int) (h1 : 1 ≤ L) (h2 : L ≤ 18)
    (mode : Bool) (e : EngineState) (hs : e.map.styleLoaded = true) :
    visibleFloodIds (updateFloodLayers mode L e).map =
      if (tilesetFor mode (64 + (L - 8))).isSome then [buildVisibleLayerId L] else [] := by
  have hlay := updateFloodLayers_map_layers mode L e hs
  unfold visibleFloodIds
  rw [hlay, List.filter_append, List.map_append]
  have hclear : ((validLevels.foldl removeStep e.map).layers.filter
      (fun l => l.visible && floodFillIds.contains l.id)) = [] := by
    rw [List.filter_eq_nil_iff]
    intro l hl
    obtain ⟨-, hne⟩ := removeFold_mem validLevels e.map l hl
    simp only [Bool.and_eq_true, not_and]
    intro _ hcon
    have hmem : l.id ∈ floodFillIds := by simpa using hcon
    rcases List.mem_map.mp (by simpa [floodFillIds] using hmem) with ⟨lv, hlv, heq⟩
    exact hne lv hlv heq.symm
  rw [hclear]
  simp only [List.map_nil, List.nil_append]
  interval_cases L <;> cases mode <;> decide

/-- Witness for C1 at level 9, base mode: exactly the flood65 layer is
visible. -/
theorem flood_update_single_visible_witness :
    visibleFloodIds (updateFloodLayers false 9 cleanEngine).map = ["flood65-fill"] := by
  rw [flood_update_single_visible 9 (by decide) (by decide) false cleanEngine (by decide)]
  decide

theorem getLayer_eq_of_layers_eq {m1 m2 : MapState} (h : m1.layers = m2.layers) (id : String) :
    getLayer m1 id = getLayer m2 id := by
  simp [getLayer, h]

theorem clearHoverHandlers_spec (e : EngineState) (hinv : hoverInv e) :
    (clearHoverHandlers e).map.listeners = [] ∧
    (clearHoverHandlers e).map.layers = e.map.layers ∧
    (clearHoverHandlers e).map.styleLoaded = e.map.styleLoaded ∧
    (clearHoverHandlers e).hoverLayerId = none ∧
    (clearHoverHandlers e).nextToken = e.nextToken := by
  unfold hoverInv at hinv
  unfold clearHoverHandlers
  cases hl : e.hoverLayerId with
  | none =>
    rw [hl] at hinv
    exact ⟨hinv, rfl, rfl, hl, rfl⟩
  | some lid =>
    rw [hl] at hinv
    obtain ⟨mt, ot, hmt, hot, hlist⟩ := hinv
    rw [hmt, hot, hlist]
    refine ⟨?_, rfl, rfl, rfl, rfl⟩
    simp [List.filter, show (("mouseleave" : String) == "mousemove") = false from rfl]

theorem setupHoverPopup_step (e : EngineState) (i : String)
    (hs : e.map.styleLoaded = true) (hinv : hoverInv e) :
    hoverInv (setupHoverPopup (some i) e) ∧
    (setupHoverPopup (some i) e).map.layers = e.map.layers ∧
    (setupHoverPopup (some i) e).map.styleLoaded = true ∧
    e.nextToken ≤ (setupHoverPopup (some i) e).nextToken ∧
    (getLayer e.map i = true →
      (setupHoverPopup (some i) e).map.listeners =
        [{ event := "mousemove", layerId := i, token := e.nextToken },
         { event := "mouseleave", layerId := i, token := e.nextToken + 1 }] ∧
      (setupHoverPopup (some i) e).hoverLayerId = some i) ∧
    (getLayer e.map i = false →
      (setupHoverPopup (some i) e).map.listeners = [] ∧
      (setupHoverPopup (some i) e).hoverLayerId = none) := by
  obtain ⟨hls, hlay, hsl, hid, htok⟩ := clearHoverHandlers_spec e hinv
  have hglx : getLayer (clearHoverHandlers e).map i = getLayer e.map i :=
    getLayer_eq_of_layers_eq hlay i
  unfold setupHoverPopup
  rw [hs]
  simp only [if_true]
  rw [hglx]
  by_cases hg : getLayer e.map i = true
  · rw [hg]
    simp only [if_true]
    refine ⟨?_, ?_, ?_, ?_, ?_, ?_⟩
    · unfold hoverInv
      simp only [hls, htok]
      exact ⟨e.nextToken, e.nextToken + 1, rfl, rfl, by simp⟩
    · simpa using hlay
    · simpa using (hsl.trans hs)
    · simp [htok]
    · intro _
      constructor
      · simp [hls, htok]
      · trivial
    · intro hg'
      simp at hg'
  · have hg' : getLayer e.map i = false := by simpa using hg
    rw [hg']
    simp only [Bool.false_eq_true, if_false]
    refine ⟨?_, ?_, ?_, ?_, ?_, ?_⟩
    · unfold hoverInv
      simp only [hid, hls]
    · simpa using hlay
    · simpa using (hsl.trans hs)
    · simp [htok]
    · intro hgx
      simp at hgx
    · intro _
      exact ⟨hls, hid⟩

theorem rebindAll_last_spec (ids : List String) :
    ∀ e : EngineState, e.map.styleLoaded = true → hoverInv e → ∀ hne : ids ≠ [],
      (getLayer e.map (ids.getLast hne) = true →
        ∃ t, e.nextToken ≤ t ∧
          (rebindAll ids e).map.listeners =
            [{ event := "mousemove", layerId := ids.getLast hne, token := t },
             { event := "mouseleave", layerId := ids.getLast hne, token := t + 1 }] ∧
          (rebindAll ids e).hoverLayerId = some (ids.getLast hne)) ∧
      (getLayer e.map (ids.getLast hne) = false →
        (rebindAll ids e).map.listeners = [] ∧
        (rebindAll ids e).hoverLayerId = none) := by
  induction ids with
  | nil =>
    intro e _ _ hne
    exact absurd rfl hne
  | cons a as ih =>
    intro e hs hinv hne
    obtain ⟨hinv', hlay, hs', htok, hbind, hnobind⟩ := setupHoverPopup_step e a hs hinv
    cases as with
    | nil =>
      constructor
      · intro hg
        exact ⟨e.nextToken, le_refl _, (hbind hg).1, (hbind hg).2⟩
      · intro hg
        exact hnobind hg
    | cons b bs =>
      have hne' : (b :: bs : List String) ≠ [] := by simp
      have hlast : (a :: b :: bs).getLast hne = (b :: bs).getLast hne' :=
        List.getLast_cons hne'
      have hrb : rebindAll (a :: b :: bs) e = rebindAll (b :: bs) (setupHoverPopup (some a) e) :=
        rfl
      have hglx : getLayer (setupHoverPopup (some a) e).map ((b :: bs).getLast hne') =
          getLayer e.map ((b :: bs).getLast hne') := getLayer_eq_of_layers_eq hlay _
      have hres := ih (setupHoverPopup (some a) e) hs' hinv' hne'
      rw [hlast, hrb]
      constructor
      · intro hg
        obtain ⟨t, ht, h1, h2⟩ := hres.1 (by rw [hglx]; exact hg)
        exact ⟨t, le_trans htok ht, h1, h2⟩
      · intro hg
        exact hres.2 (by rw [hglx]; exact hg)

/-- Claim C2 counterexample: a realizable `setActive`-driven rebind sequence
(HESCO at level 16, then HESCO at level 9, each settling through the idle
callback) ends with ZERO bound layers - the last requested layer
`flood65-fill` does not exist in HESCO mode - even though the previous state
had a bound layer.  The claim's "exactly one layer has handlers bound - the
last requested layer" is false. -/
theorem hover_rebind_missing_layer_unbinds :
    (fireIdle (updateFloodLayers true 16 cleanEngine)).map.listeners ≠ [] ∧
    (fireIdle (updateFloodLayers true 9 (fireIdle (updateFloodLayers true 16 cleanEngine)))).map.listeners = [] ∧
    (fireIdle (updateFloodLayers true 9 (fireIdle (updateFloodLayers true 16 cleanEngine)))).hoverLayerId = none := by
  refine ⟨by decide, by decide, by decide⟩

/-- Claim C2 as amended: after any non-empty sequence of rebinds (each a
`setupHoverPopup` call with a non-null target, as triggered by `setActive`),
starting from a consistent hover state, AT MOST one layer has hover handlers:
when the last requested layer exists on the renderer, exactly its fresh
move/leave pair is bound; when it does not exist, nothing is bound.  In both
cases zero handlers from the previous bindings remain: each rebind removes the
previous layer's handlers before installing the new ones. -/
theorem hover_rebind_last_only (ids : List String) (hne : ids ≠ []) (e : EngineState)
    (hs : e.map.styleLoaded = true) (hinv : hoverInv e) :
    (getLayer e.map (ids.getLast hne) = true →
      ∃ t, e.nextToken ≤ t ∧
        (rebindAll ids e).map.listeners =
          [{ event := "mousemove", layerId := ids.getLast hne, token := t },
           { event := "mouseleave", layerId := ids.getLast hne, token := t + 1 }] ∧
        (rebindAll ids e).hoverLayerId = some (ids.getLast hne)) ∧
    (getLayer e.map (ids.getLast hne) = false →
      (rebindAll ids e).map.listeners = [] ∧
      (rebindAll ids e).hoverLayerId = none) :=
  rebindAll_last_spec ids e hs hinv hne

/-- Witness for the amended C2: rebinding twice onto existing layers leaves
exactly the final fresh pair bound to the last requested layer. -/
theorem hover_rebind_last_only_witness :
    ∃ t, (updateFloodLayers true 16 cleanEngine).nextToken ≤ t ∧
      (rebindAll ["flood70-fill", "flood72-fill"] (updateFloodLayers true 16 cleanEngine)).map.listeners =
        [{ event := "mousemove", layerId := "flood72-fill", token := t },
         { event := "mouseleave", layerId := "flood72-fill", token := t + 1 }] ∧
      (rebindAll ["flood70-fill", "flood72-fill"] (updateFloodLayers true 16 cleanEngine)).hoverLayerId =
        some "flood72-fill" :=
  (hover_rebind_last_only ["flood70-fill", "flood72-fill"] (by decide)
    (updateFloodLayers true 16 cleanEngine) (by decide) (by rfl)).1 (by decide)

/-- Claim C4: the cited mid-flight scenario does settle correctly - after
switching level 16 barrier to level 16 base before idle, both pending idle
callbacks run in registration order, leaving exactly the base-backed flood72
layer visible with hover bound to it and the barrier tileset gone - but the
code has no generation token: stale completions are executed, not discarded.
The second half evaluates the code on a realizable interleaving where the
300ms `setTimeout` rebind of `toggleHescoMode` (captured target
`flood72-fill`) lands after a newer level-9 selection has settled: the stale
completion persists, re-binding hover to the hidden, superseded flood72 layer
while no flood layer is visible. -/
theorem stale_timer_rebind_persists :
    (visibleFloodIds (fireIdle (updateFloodLayers false 16 (updateFloodLayers true 16 cleanEngine))).map
        = ["flood72-fill"] ∧
     (fireIdle (updateFloodLayers false 16 (updateFloodLayers true 16 cleanEngine))).hoverLayerId
        = some "flood72-fill" ∧
     (fireIdle (updateFloodLayers false 16 (updateFloodLayers true 16 cleanEngine))).map.sources.any
        (fun s => s.id == "flood72" && s.url == "mapbox://mapfean.44bl8opr") = true ∧
     (fireIdle (updateFloodLayers false 16 (updateFloodLayers true 16 cleanEngine))).map.sources.all
        (fun s => !(s.url == "mapbox://mapfean.9kmxxb2g")) = true) ∧
    ((setupHoverPopup (some "flood72-fill")
        (fireIdle (updateFloodLayers true 9 (updateFloodLayers true 16 cleanEngine)))).hoverLayerId
        = some "flood72-fill" ∧
     visibleFloodIds (setupHoverPopup (some "flood72-fill")
        (fireIdle (updateFloodLayers true 9 (updateFloodLayers true 16 cleanEngine)))).map = [] ∧
     (fireIdle (updateFloodLayers true 9 (updateFloodLayers true 16 cleanEngine))).map.listeners = []) := by
  refine ⟨⟨by decide, by decide, by decide, by decide⟩, by decide, by decide, by decide⟩

theorem parseTenthsParts_none (sgn : Int) (afterInt : List Char)
    (h : ∀ c ∈ afterInt, c.isDigit = false) :
    parseTenthsParts sgn [] afterInt = none := by
  unfold parseTenthsParts
  split
  · rfl
  · next frac =>
    cases frac with
    | nil => rfl
    | cons d ds =>
      have hd : d.isDigit = false := h d (by simp)
      simp [hd]
  · rfl

theorem parseTenthsCore_none (sgn : Int) (rest : List Char)
    (h : ∀ c ∈ rest, c.isDigit = false) : parseTenthsCore sgn rest = none := by
  have htw : rest.takeWhile (fun c => c.isDigit) = [] := by
    cases rest with
    | nil => rfl
    | cons c r => simp [List.takeWhile_cons, h c (by simp)]
  unfold parseTenthsCore
  rw [htw]
  simpa using parseTenthsParts_none sgn rest h

theorem parseTenths_none_of_nodigit (s : String)
    (hne : trimAsciiList s.data ≠ [])
    (h : ∀ c ∈ trimAsciiList s.data, c.isDigit = false) :
    parseTenths s = none := by
  unfold parseTenths
  split
  · next heq => exact absurd heq hne
  · next r heq =>
    apply parseTenthsCore_none
    intro c hc
    exact h c (by rw [heq]; simp [hc])
  · next r heq =>
    apply parseTenthsCore_none
    intro c hc
    exact h c (by rw [heq]; simp [hc])
  · next => exact parseTenthsCore_none 1 _ h

/-- Claim C7 counterexample: a present but non-numeric depth value is echoed
verbatim by the hover tooltip instead of rendering the "Unknown" marker the
claim promises (only an absent depth falls back to "Unknown"). -/
theorem hover_tooltip_nonnumeric_verbatim :
    hoverTooltipText { DN := some (JVal.jstr "n/a"), depth := none } = "Water Depth: n/a ft" ∧
    hoverTooltipText { DN := some (JVal.jstr "n/a"), depth := none } ≠ "Water Depth: Unknown ft" := by
  refine ⟨by decide, by decide⟩

/-- Claim C7 as amended: a numeric depth is rendered to one decimal place
(depth 3.2 gives "Water Depth: 3.2 ft"); an absent depth renders the literal
"Unknown" marker via the JS default; a present depth string that is not
coercible to a number (no digit in its trimmed form, e.g. "n/a") is echoed
verbatim, not replaced by "Unknown". -/
theorem hover_tooltip_text_spec :
    hoverTooltipText { DN := some (JVal.jnum 32), depth := none } = "Water Depth: 3.2 ft" ∧
    hoverTooltipText { DN := none, depth := none } = "Water Depth: Unknown ft" ∧
    (∀ s : String, trimAsciiList s.data ≠ [] →
      (∀ c ∈ trimAsciiList s.data, c.isDigit = false) →
      hoverTooltipText { DN := some (JVal.jstr s), depth := none } =
        "Water Depth: " ++ s ++ " ft") := by
  refine ⟨by decide, by decide, ?_⟩
  intro s hne h
  have hp : parseTenths s = none := parseTenths_none_of_nodigit s hne h
  unfold hoverTooltipText hoverDepthValue numCoerce
  simp [hp]

/-- Witness for the amended C7 at the non-numeric string "n/a". -/
theorem hover_tooltip_text_spec_witness :
    hoverTooltipText { DN := some (JVal.jstr "n/a"), depth := none } =
      "Water Depth: " ++ "n/a" ++ " ft" :=
  hover_tooltip_text_spec.2.2 "n/a" (by decide) (by decide)

/-- Claim C9 counterexample: a well-formed response whose latest sample value
is non-numeric ("abc") but whose timestamp is valid degrades the VALUE to
"N/A" yet reports STATUS "Online", not the "Offline" the claim promises for
malformed data. -/
theorem gauge_online_na_counterexample :
    (fetchGage mendenhallGage (FetchOutcome.response true
        (some { values := some [{ value := "abc", dateTime := some "2026-01-01" }] }))).value = "N/A" ∧
    (fetchGage mendenhallGage (FetchOutcome.response true
        (some { values := some [{ value := "abc", dateTime := some "2026-01-01" }] }))).status = "Online" ∧
    ("Online" : String) ≠ "Offline" := by
  refine ⟨by decide, by decide, by decide⟩

/-- Claim C9 as amended: every fetch outcome yields a reading (the per-gauge
catch makes the poller total - no exception escapes, in particular never into
the layer engine); a rejected fetch, a non-OK response, an unparseable body,
an absent or empty values list, and a non-empty values list whose latest
timestamp is an Invalid Date (the `Intl` formatting throws into the catch) all
degrade to the value "N/A" / status "Offline" reading; a response with a
non-empty values list and a valid latest timestamp reports status "Online",
with value "N/A" when the latest sample's value does not parse as a number. -/
theorem gauge_poll_resilient (b : Option GaugeSeriesBody) (vs : List GaugeSample)
    (hvs : vs ≠ []) :
    (∀ o : FetchOutcome, fetchGage mendenhallGage o = offlineReading mendenhallGage ∨
        (fetchGage mendenhallGage o).status = "Online") ∧
    fetchGage mendenhallGage FetchOutcome.netError = offlineReading mendenhallGage ∧
    fetchGage mendenhallGage (FetchOutcome.response false b) = offlineReading mendenhallGage ∧
    fetchGage mendenhallGage (FetchOutcome.response true none) = offlineReading mendenhallGage ∧
    fetchGage mendenhallGage (FetchOutcome.response true (some { values := none })) =
      offlineReading mendenhallGage ∧
    fetchGage mendenhallGage (FetchOutcome.response true (some { values := some [] })) =
      offlineReading mendenhallGage ∧
    ((vs.getLastD defaultSample).dateTime = none →
      fetchGage mendenhallGage (FetchOutcome.response true (some { values := some vs })) =
        offlineReading mendenhallGage) ∧
    (∀ dt : String, (vs.getLastD defaultSample).dateTime = some dt →
      (fetchGage mendenhallGage (FetchOutcome.response true (some { values := some vs }))).status =
        "Online" ∧
      (parseFloatHundredths (vs.getLastD defaultSample).value = none →
        (fetchGage mendenhallGage (FetchOutcome.response true (some { values := some vs }))).value =
          "N/A")) := by
  have hlen : vs.length > 0 := List.length_pos.mpr hvs
  refine ⟨?_, rfl, rfl, rfl, rfl, rfl, ?_, ?_⟩
  · intro o
    cases o with
    | netError => left; rfl
    | response ok body =>
      cases ok with
      | false => left; rfl
      | true =>
        cases body with
        | none => left; rfl
        | some b' =>
          cases b' with
          | mk bvals =>
            cases bvals with
            | none => left; rfl
            | some vs' =>
              by_cases hl : vs'.length > 0
              · cases hdt : (vs'.getLastD defaultSample).dateTime with
                | none =>
                  left
                  unfold fetchGage fetchGageTry
                  simp only [Bool.not_true, Bool.false_eq_true, if_false, hl, if_true, hdt]
                | some dt =>
                  right
                  unfold fetchGage fetchGageTry
                  simp only [Bool.not_true, Bool.false_eq_true, if_false, hl, if_true, hdt]
              · left
                unfold fetchGage fetchGageTry
                simp only [Bool.not_true, Bool.false_eq_true, if_false, hl, if_true]
  · intro hdt
    unfold fetchGage fetchGageTry
    simp only [Bool.not_true, Bool.false_eq_true, if_false, hlen, if_true, hdt]
  · intro dt hdt
    unfold fetchGage fetchGageTry
    simp only [Bool.not_true, Bool.false_eq_true, if_false, hlen, if_true, hdt]
    constructor
    · trivial
    · intro hparse
      simp only [hparse]

/-- Witness for the amended C9: with a valid timestamp and a non-numeric
latest value the reading is Online with value "N/A" (and the poller is
total). -/
theorem gauge_poll_resilient_witness :
    (fetchGage mendenhallGage (FetchOutcome.response true
      (some { values := some [{ value := "abc", dateTime := some "2026-01-01T00:00" }] }))).value =
      "N/A" :=
  ((gauge_poll_resilient none [{ value := "abc", dateTime := some "2026-01-01T00:00" }]
    (by decide)).2.2.2.2.2.2.2 "2026-01-01T00:00" rfl).2 (by decide)

